import Mathlib

/-!
Shallow embedding of `src/script.js` (a static personal-web-page i18n /
mode-toggle script) and proofs about its translation resolver `t`, markup
normalizer `processMarkdown`, bundle loader `loadLanguage`, and content
refresher `updateContent`.

Conventions of the embedding:
* A JSON object mapping keys to strings is an association list
  `List (String × String)`; property access `obj[key]` is `objGet`, which
  returns `Option String` (`none` = the JS value `undefined`).
* The loaded bundle `currentTranslations` is a JSON object expected to hold
  the keys `"summary"` and `"full"`; a field is `none` when the key is absent
  from the object.  `Object.keys(currentTranslations).length > 0` is
  `¬ Bundle.isEmpty`.
* JS truthiness on a possibly-undefined string (`!text`, `text || fallback`)
  is `falsy : Option String → Bool`: `undefined` and `""` are falsy.
* The network is a pure oracle `fetch : String → Option Bundle`:
  `some b` means the GET for that language succeeded and parsed to `b`;
  `none` means network error, non-success HTTP status, or a JSON parse error
  (all of which land in the same `catch` in the source).
* Functions that mutate the global state (`currentLang`, `currentMode`,
  `currentTranslations`) take and return an explicit `SessionState`; the
  loader additionally returns the number of `fetch` calls it performed.
-/

/-- The content mode: the global `currentMode`, either `'summary'` or
`'full'` (`src/script.js` line 3). -/
inductive Mode where
  | summary : Mode
  | full : Mode
deriving DecidableEq, Repr

/-- `currentMode = currentMode === 'summary' ? 'full' : 'summary'`
(the mode-toggle click listener, line 174). -/
def Mode.flip : Mode → Mode
  | Mode.summary => Mode.full
  | Mode.full => Mode.summary

/-- A loaded language bundle: the JSON object fetched from `./i18n/lang.json`,
read only at its `"summary"` and `"full"` keys.  A field is `none` when the
key is absent from the object. -/
structure Bundle where
  summary : Option (List (String × String))
  full : Option (List (String × String))
deriving DecidableEq, Repr

/-- The object `{}` (the initial value of `currentTranslations`, line 4, and
the terminal-failure value, line 77). -/
def Bundle.empty : Bundle := ⟨none, none⟩

/-- `Object.keys(currentTranslations).length === 0`: no keys present. -/
def Bundle.isEmpty (b : Bundle) : Bool :=
  b.summary.isNone && b.full.isNone

/-- `currentTranslations[currentMode]` (lines 16-17). -/
def Bundle.modeContent (b : Bundle) : Mode → Option (List (String × String))
  | Mode.summary => b.summary
  | Mode.full => b.full

/-- The global mutable session state (`src/script.js` lines 2-4). -/
structure SessionState where
  currentLang : String
  currentMode : Mode
  currentTranslations : Bundle
deriving DecidableEq, Repr

/-- JS property access `obj[key]` on an object modelled as an association
list: the value stored under `key`, or `none` (= `undefined`). -/
def objGet (m : List (String × String)) (key : String) : Option String :=
  match m.find? (fun p => p.1 == key) with
  | some p => some p.2
  | none => none

/-- JS falsiness of a possibly-undefined string value: `undefined` and the
empty string are falsy (`!text`, line 25, and `text || ...`, line 34). -/
def falsy : Option String → Bool
  | none => true
  | some s => s == ""

/-- Optional-chained lookup `currentTranslations[mode]?.[key]`
(lines 20 and 26). -/
def bundleLookup (b : Bundle) (m : Mode) (key : String) : Option String :=
  match b.modeContent m with
  | some obj => objGet obj key
  | none => none

/-- The translation resolver `t(key)` (`src/script.js` lines 15-35):
look up `key` in the current mode's map; if the result is falsy and the mode
is `'full'`, fall back to the `'summary'` map; if the result is still falsy,
return the missing-key sentinel. -/
def t (st : SessionState) (key : String) : String :=
  let activeModeText := bundleLookup st.currentTranslations st.currentMode key
  let text :=
    if falsy activeModeText && (st.currentMode == Mode.full) then
      bundleLookup st.currentTranslations Mode.summary key
    else
      activeModeText
  match text with
  | some s => if s == "" then "!!MISSING_KEY:" ++ key ++ "!!" else s
  | none => "!!MISSING_KEY:" ++ key ++ "!!"


/-- The asynchronous loader `loadLanguage(lang)` (`src/script.js` lines
55-80), with the network abstracted as the oracle `fetch`.  Returns the new
session state together with the number of `fetch` calls performed.
* If `lang` is already the current language and the bundle is non-empty,
  return unchanged without fetching (lines 56-59).
* Otherwise fetch `./i18n/lang.json`; on success replace the bundle
  wholesale and set `currentLang` (lines 62-67).
* On failure (network error, non-success status, or parse error), if
  `lang ≠ 'en'` recursively load `'en'` (lines 73-74); otherwise set the
  bundle to the empty object (line 77). -/
def loadLanguage (fetch : String → Option Bundle) (st : SessionState)
    (lang : String) : SessionState × Nat :=
  if lang = st.currentLang ∧ st.currentTranslations.isEmpty = false then
    (st, 0)
  else
    match fetch lang with
    | some b => ({ st with currentTranslations := b, currentLang := lang }, 1)
    | none =>
      if h : lang = "en" then
        ({ st with currentTranslations := Bundle.empty }, 1)
      else
        ((loadLanguage fetch st "en").1, (loadLanguage fetch st "en").2 + 1)
termination_by (if lang = "en" then 1 else 2)
decreasing_by simp [h]


/-- The ECMA-262 LineTerminator set: LF (U+000A), CR (U+000D), LS (U+2028)
and PS (U+2029).  The regex `.` without the `s` flag matches any character
except these four. -/
def isLineTerminator (c : Char) : Bool :=
  c == '\n' || c == '\r' || c == '\u2028' || c == '\u2029'

/-- The lazy part of the regex `/\*\*(.*?)\*\*/` once `\*\*` has matched
(`src/script.js` line 42): scan forward for the closing `**`, consuming one
character at a time with `.` (which does not match a line terminator),
preferring the closing delimiter at every position (non-greedy).  Returns
the captured characters and the remainder after the closing `**`, or `none`
when no close is reachable before a line terminator or the end of the
input. -/
def findClose : List Char → Option (List Char × List Char)
  | '*' :: '*' :: rest => some ([], rest)
  | c :: rest =>
    if isLineTerminator c then none
    else
      match findClose rest with
      | some p => some (c :: p.1, p.2)
      | none => none
  | [] => none

theorem findClose_length {cs cap rest : List Char}
    (h : findClose cs = some (cap, rest)) : rest.length + 2 ≤ cs.length := by
  induction cs using findClose.induct generalizing cap rest with
  | case1 rest' => simp_all [findClose]
  | case2 c cs' h1 hlt =>
    rw [findClose] at h
    · rw [if_pos hlt] at h
      exact absurd h (by simp)
    · exact h1
  | case3 c cs' h1 hnlt p hp ih =>
    rw [findClose] at h
    · rw [if_neg hnlt, hp] at h
      simp only [Option.some.injEq, Prod.mk.injEq] at h
      have := ih hp
      simp only [List.length_cons, ← h.2]
      omega
    · exact h1
  | case4 c cs' h1 hnlt hnone ih =>
    rw [findClose] at h
    · rw [if_neg hnlt, hnone] at h
      exact absurd h (by simp)
    · exact h1
  | case5 => simp [findClose] at h

/-- One global pass of `text.replace(/\*\*(.*?)\*\*/g, '<strong>$1</strong>')`
(`src/script.js` line 42) over the character list.  At each position: if
`**` matches here and a lazy close is reachable (`findClose`), emit the
`<strong>` wrapping and continue after the closing `**`; if `**` matches but
no close is reachable, the regex fails at this position and the engine
retries from the next character; otherwise copy the character. -/
def pmAux : List Char → List Char
  | '*' :: '*' :: rest =>
    match _hf : findClose rest with
    | some p =>
      ("<strong>".data ++ p.1 ++ "</strong>".data) ++ pmAux p.2
    | none => '*' :: pmAux ('*' :: rest)
  | c :: rest => c :: pmAux rest
  | [] => []
termination_by cs => cs.length
decreasing_by
  · have := findClose_length _hf
    simp only [List.length_cons]
    omega
  · simp only [List.length_cons]
    omega
  · simp only [List.length_cons]
    omega

/-- `processMarkdown(text)` (`src/script.js` lines 38-48): return `''` for
falsy input, otherwise apply the bold-delimiter replacement once, globally. -/
def processMarkdown (text : String) : String :=
  if text == "" then ""
  else String.mk (pmAux text.data)

/-- Whether the character list contains an occurrence of the opening
delimiter `**` (two adjacent asterisks) anywhere.  Used to state that
`processMarkdown` preserves inputs without the delimiter. -/
def hasDoubleStar : List Char → Bool
  | '*' :: '*' :: _ => true
  | _ :: rest => hasDoubleStar rest
  | [] => false


/-- The parts of the DOM that `updateContent` (`src/script.js` lines 84-145)
touches: the `[data-key]` elements as `(data-key, innerHTML)` pairs, the
document's `lang` attribute, the `#current-lang-display` text, the
`#mode-toggle` label, the `hidden` class on `#full-mode-experience`, the
`bg-gray-700` / `bg-dark-card` classes on `#mode-toggle` (class presence as
`Bool`, since `classList.add` / `classList.remove` are idempotent), and the
four navigation-link labels. -/
structure Dom where
  elems : List (String × String)
  docLang : String
  currentLangDisplay : String
  modeToggleText : String
  fullModeHidden : Bool
  btnGray700 : Bool
  btnDarkCard : Bool
  navAbout : String
  navExperience : String
  navTechnologies : String
  navEducation : String
deriving DecidableEq, Repr

/-- Step 3 of `updateContent` (`src/script.js` lines 130-138): set the three
mode-dependent classes from the current mode. -/
def renderVisibility (m : Mode) (d : Dom) : Dom :=
  match m with
  | Mode.full =>
    { d with fullModeHidden := false, btnGray700 := true, btnDarkCard := false }
  | Mode.summary =>
    { d with fullModeHidden := true, btnDarkCard := true, btnGray700 := false }

/-- `updateContent()` (`src/script.js` lines 84-145) over the explicit
session state and DOM.
* If the bundle is empty, load the current language first (lines 87-91).
* If the bundle is still empty, return without touching the DOM
  (lines 94-97).
* Write every `[data-key]` element's `innerHTML` from `processMarkdown (t key)`
  (lines 104-117; the `if (text)` guard is modelled as the text being
  non-empty).
* Then read `baseContent = currentTranslations['summary']` and write the
  document language, language display, toggle label, mode-dependent
  visibility and the four nav labels (lines 101, 120-144).  When the bundle
  has no `'summary'` key, `baseContent['html-lang']` on line 120 throws a
  `TypeError`: the mutations already performed (the `[data-key]` elements)
  persist and the rest are skipped, which the embedding models by returning
  at that point. -/
def updateContent (fetch : String → Option Bundle) (st : SessionState)
    (d : Dom) : SessionState × Dom :=
  let st1 :=
    if st.currentTranslations.isEmpty then
      (loadLanguage fetch st st.currentLang).1
    else st
  if st1.currentTranslations.isEmpty then (st1, d)
  else
    let d1 := { d with
      elems := d.elems.map (fun e =>
        let text := t st1 e.1
        if text == "" then e else (e.1, processMarkdown text)) }
    match st1.currentTranslations.summary with
    | none => (st1, d1)
    | some baseContent =>
      let d2 := { d1 with
        docLang :=
          match objGet baseContent "html-lang" with
          | some s => if s == "" then st1.currentLang else s
          | none => st1.currentLang
        currentLangDisplay := st1.currentLang.toUpper
        modeToggleText := t st1 "mode-toggle-text" }
      let d3 := renderVisibility st1.currentMode d2
      let d4 := { d3 with
        navAbout := t st1 "nav-about"
        navExperience := t st1 "nav-experience"
        navTechnologies := t st1 "nav-technologies"
        navEducation := t st1 "nav-education" }
      (st1, d4)

/-- The `#mode-toggle` click listener (`src/script.js` lines 173-176):
flip the mode, then refresh the content. -/
def modeToggleClick (fetch : String → Option Bundle) (st : SessionState)
    (d : Dom) : SessionState × Dom :=
  updateContent fetch { st with currentMode := st.currentMode.flip } d

/-- A language-menu link click (`src/script.js` lines 162-170): load the
selected language, then refresh the content. -/
def languageLinkClick (fetch : String → Option Bundle) (st : SessionState)
    (d : Dom) (newLang : String) : SessionState × Dom :=
  let r := loadLanguage fetch st newLang
  updateContent fetch r.1 d

/-! ## C1-C3: the translation resolver -/

/-- C1, counterexample.  The claim "for every key `k` in the current mode's
map, `t k` returns exactly the text stored under `k`" fails when the stored
text is the empty string: `!text` on line 25 and `text || ...` on line 34 of
`src/script.js` treat `""` as missing, so `t` returns the sentinel instead
of the stored `""`.  Concretely: mode `summary`, bundle
`{summary: {"a": ""}}`: the map for the current mode stores `""` under
`"a"`, yet `t` returns `"!!MISSING_KEY:a!!" ≠ ""`. -/
theorem t_active_mode_exact_counterexample :
    bundleLookup ⟨some [("a", "")], none⟩ Mode.summary "a" = some "" ∧
    t ⟨"en", Mode.summary, ⟨some [("a", "")], none⟩⟩ "a" ≠ "" := by
  decide

/-- C1, amended: for every key `k` in the current mode's map whose stored
text is non-empty, `t k` returns exactly that stored text. -/
theorem t_active_mode_exact (st : SessionState) (k s : String)
    (h1 : bundleLookup st.currentTranslations st.currentMode k = some s)
    (h2 : s ≠ "") : t st k = s := by
  have hs : (s == "") = false := by simpa using h2
  simp [t, h1, falsy, hs]

/-- Witness for `t_active_mode_exact` at mode `summary`, bundle
`{summary: {"a": "Hi"}}`, key `"a"`. -/
theorem t_active_mode_exact_witness :
    bundleLookup ⟨some [("a", "Hi")], none⟩ Mode.summary "a" = some "Hi" ∧
    ("Hi" : String) ≠ "" ∧
    t ⟨"en", Mode.summary, ⟨some [("a", "Hi")], none⟩⟩ "a" = "Hi" :=
  ⟨by decide, by decide,
    t_active_mode_exact ⟨"en", Mode.summary, ⟨some [("a", "Hi")], none⟩⟩
      "a" "Hi" (by decide) (by decide)⟩

/-- C2, counterexample.  The claim "for every key `k` absent from `full` and
present in `summary`, `t k` in mode `full` returns the summary text" fails
when the summary text is the empty string: with bundle
`{summary: {"a": ""}, full: {}}` in mode `full`, the summary map stores `""`
under `"a"`, yet `t` returns `"!!MISSING_KEY:a!!" ≠ ""` (line 34 of
`src/script.js` treats `""` as falsy). -/
theorem t_summary_fallback_counterexample :
    bundleLookup ⟨some [("a", "")], some []⟩ Mode.full "a" = none ∧
    bundleLookup ⟨some [("a", "")], some []⟩ Mode.summary "a" = some "" ∧
    t ⟨"en", Mode.full, ⟨some [("a", "")], some []⟩⟩ "a" ≠ "" := by
  decide

/-- C2, amended: for every key `k` absent from the `full` map and stored
with non-empty text in the `summary` map, `t k` in mode `full` returns the
summary text. -/
theorem t_summary_fallback (st : SessionState) (k s : String)
    (hm : st.currentMode = Mode.full)
    (hf : bundleLookup st.currentTranslations Mode.full k = none)
    (hs : bundleLookup st.currentTranslations Mode.summary k = some s)
    (hne : s ≠ "") : t st k = s := by
  have hsne : (s == "") = false := by simpa using hne
  simp [t, hm, hf, hs, falsy, hsne]

/-- Witness for `t_summary_fallback` at bundle
`{summary: {"a": "Hi"}, full: {}}`, mode `full`, key `"a"` (the example in
the spec). -/
theorem t_summary_fallback_witness :
    bundleLookup ⟨some [("a", "Hi")], some []⟩ Mode.full "a" = none ∧
    bundleLookup ⟨some [("a", "Hi")], some []⟩ Mode.summary "a" = some "Hi" ∧
    t ⟨"en", Mode.full, ⟨some [("a", "Hi")], some []⟩⟩ "a" = "Hi" :=
  ⟨by decide, by decide,
    t_summary_fallback ⟨"en", Mode.full, ⟨some [("a", "Hi")], some []⟩⟩
      "a" "Hi" rfl (by decide) (by decide) (by decide)⟩

/-- C3: for every key `k` absent from both the `summary` and the `full` map
(also when the maps themselves are absent, e.g. the empty bundle), `t k`
returns the sentinel `"!!MISSING_KEY:" ++ k ++ "!!"`, which embeds the key
name between fixed markers.  That `t` always returns a string and never
throws holds by construction: `t` is a total function into `String`, and
every access in its body is optional-chained in the source. -/
theorem t_missing_sentinel (st : SessionState) (k : String)
    (h1 : bundleLookup st.currentTranslations Mode.summary k = none)
    (h2 : bundleLookup st.currentTranslations Mode.full k = none) :
    t st k = "!!MISSING_KEY:" ++ k ++ "!!" := by
  cases hm : st.currentMode <;> simp [t, hm, h1, h2, falsy]

/-- Witness for `t_missing_sentinel` at the spec's example: bundle
`{summary: {"a": "Hi"}, full: {}}`, key `"b"`. -/
theorem t_missing_sentinel_witness :
    bundleLookup ⟨some [("a", "Hi")], some []⟩ Mode.summary "b" = none ∧
    bundleLookup ⟨some [("a", "Hi")], some []⟩ Mode.full "b" = none ∧
    t ⟨"en", Mode.full, ⟨some [("a", "Hi")], some []⟩⟩ "b"
      = "!!MISSING_KEY:b!!" :=
  ⟨by decide, by decide,
    t_missing_sentinel ⟨"en", Mode.full, ⟨some [("a", "Hi")], some []⟩⟩
      "b" (by decide) (by decide)⟩

/-! ## C4-C6, C8: the bundle loader -/

theorem loadLanguage_noop {fetch : String → Option Bundle}
    {st : SessionState} {lang : String} (h1 : lang = st.currentLang)
    (h2 : st.currentTranslations.isEmpty = false) :
    loadLanguage fetch st lang = (st, 0) := by
  rw [loadLanguage]
  simp [h1, h2]

theorem loadLanguage_fetch_success {fetch : String → Option Bundle}
    {st : SessionState} {lang : String} {b : Bundle}
    (hg : ¬ (lang = st.currentLang ∧ st.currentTranslations.isEmpty = false))
    (hb : fetch lang = some b) :
    loadLanguage fetch st lang
      = ({ st with currentTranslations := b, currentLang := lang }, 1) := by
  rw [loadLanguage]
  simp [hg, hb]

theorem loadLanguage_fail_en {fetch : String → Option Bundle}
    {st : SessionState}
    (hg : ¬ ("en" = st.currentLang ∧ st.currentTranslations.isEmpty = false))
    (hb : fetch "en" = none) :
    loadLanguage fetch st "en"
      = ({ st with currentTranslations := Bundle.empty }, 1) := by
  rw [loadLanguage]
  simp [hg, hb]

theorem loadLanguage_fail_other {fetch : String → Option Bundle}
    {st : SessionState} {lang : String}
    (hg : ¬ (lang = st.currentLang ∧ st.currentTranslations.isEmpty = false))
    (hb : fetch lang = none) (hl : lang ≠ "en") :
    loadLanguage fetch st lang
      = ((loadLanguage fetch st "en").1, (loadLanguage fetch st "en").2 + 1) := by
  rw [loadLanguage]
  simp [hg, hb, hl]

theorem loadLanguage_en_count (fetch : String → Option Bundle)
    (st : SessionState) : (loadLanguage fetch st "en").2 ≤ 1 := by
  rw [loadLanguage]
  split
  · simp
  · split
    · simp
    · split
      · simp
      · simp_all

theorem loadLanguage_count_le_two (fetch : String → Option Bundle)
    (st : SessionState) (lang : String) :
    (loadLanguage fetch st lang).2 ≤ 2 := by
  rw [loadLanguage]
  split
  · simp
  · split
    · simp
    · split
      · simp
      · have := loadLanguage_en_count fetch st
        omega

/-- C4: calling `loadLanguage L` twice in a row performs the underlying
fetch at most once.  First conjunct: when `L` already equals the current
language and a bundle is loaded, the call is a no-op — it performs no fetch
and leaves the session state unchanged (the guard on `src/script.js` lines
56-59).  Second conjunct: when the fetch for `L` succeeds with a non-empty
bundle (so that after the first call `L` is current and loaded), the second
of two consecutive calls is that no-op and the two calls together perform
at most one fetch. -/
theorem loadLanguage_twice_fetch_once :
    (∀ (fetch : String → Option Bundle) (st : SessionState) (L : String),
      L = st.currentLang → st.currentTranslations.isEmpty = false →
      loadLanguage fetch st L = (st, 0)) ∧
    (∀ (fetch : String → Option Bundle) (st : SessionState) (L : String)
      (b : Bundle), fetch L = some b → b.isEmpty = false →
      loadLanguage fetch (loadLanguage fetch st L).1 L
        = ((loadLanguage fetch st L).1, 0) ∧
      (loadLanguage fetch st L).2 ≤ 1) := by
  refine ⟨fun fetch st L h1 h2 => loadLanguage_noop h1 h2, ?_⟩
  intro fetch st L b hb hne
  by_cases hg : L = st.currentLang ∧ st.currentTranslations.isEmpty = false
  · rw [loadLanguage_noop hg.1 hg.2]
    exact ⟨loadLanguage_noop hg.1 hg.2, by simp⟩
  · rw [loadLanguage_fetch_success hg hb]
    exact ⟨loadLanguage_noop rfl hne, by simp⟩

/-- Witness for `loadLanguage_twice_fetch_once`: a fetch environment where
`"es"` resolves to a bundle with an empty `summary` map, starting from the
initial state. -/
theorem loadLanguage_twice_fetch_once_witness :
    (fun l => if l = "es" then some (⟨some [], none⟩ : Bundle) else none) "es"
      = some ⟨some [], none⟩ ∧
    Bundle.isEmpty ⟨some [], none⟩ = false ∧
    (loadLanguage (fun l => if l = "es" then some ⟨some [], none⟩ else none)
        (loadLanguage (fun l => if l = "es" then some ⟨some [], none⟩ else none)
          ⟨"en", Mode.summary, Bundle.empty⟩ "es").1 "es"
      = ((loadLanguage (fun l => if l = "es" then some ⟨some [], none⟩ else none)
          ⟨"en", Mode.summary, Bundle.empty⟩ "es").1, 0) ∧
     (loadLanguage (fun l => if l = "es" then some ⟨some [], none⟩ else none)
        ⟨"en", Mode.summary, Bundle.empty⟩ "es").2 ≤ 1) :=
  ⟨by decide, by decide,
    loadLanguage_twice_fetch_once.2
      (fun l => if l = "es" then some ⟨some [], none⟩ else none)
      ⟨"en", Mode.summary, Bundle.empty⟩ "es" ⟨some [], none⟩
      (by decide) (by decide)⟩

/-- C5: for a non-default language `L` whose fetch actually happens (the
already-loaded guard does not fire) and fails, while the default `'en'`
fetch succeeds with bundle `b`, `loadLanguage L` ends with `currentLang =
'en'` and the `'en'` bundle loaded.  The hypothesis `hinv` states that the
starting state is consistent with the fetch environment (a non-empty loaded
bundle is the one the fetch for its language returns); it covers the branch
in which the inner `loadLanguage('en')` call hits the already-loaded guard
because `'en'` was already current. -/
theorem loadLanguage_fallback_default (fetch : String → Option Bundle)
    (st : SessionState) (L : String) (b : Bundle)
    (hL : L ≠ "en") (hfail : fetch L = none) (hen : fetch "en" = some b)
    (hg : ¬ (L = st.currentLang ∧ st.currentTranslations.isEmpty = false))
    (hinv : st.currentTranslations.isEmpty = false →
      fetch st.currentLang = some st.currentTranslations) :
    (loadLanguage fetch st L).1.currentLang = "en" ∧
    (loadLanguage fetch st L).1.currentTranslations = b := by
  rw [loadLanguage_fail_other hg hfail hL]
  by_cases hg2 : "en" = st.currentLang ∧ st.currentTranslations.isEmpty = false
  · rw [loadLanguage_noop hg2.1 hg2.2]
    have := hinv hg2.2
    rw [← hg2.1] at this
    rw [hen] at this
    exact ⟨hg2.1.symm, (Option.some.inj this).symm⟩
  · rw [loadLanguage_fetch_success hg2 hen]
    exact ⟨rfl, rfl⟩

/-- Witness for `loadLanguage_fallback_default`: `"es"` fails, `"en"`
resolves, starting from the empty initial state. -/
theorem loadLanguage_fallback_default_witness :
    ("es" : String) ≠ "en" ∧
    ((loadLanguage (fun l => if l = "en" then some ⟨some [], none⟩ else none)
        ⟨"en", Mode.summary, Bundle.empty⟩ "es").1.currentLang = "en" ∧
     (loadLanguage (fun l => if l = "en" then some ⟨some [], none⟩ else none)
        ⟨"en", Mode.summary, Bundle.empty⟩ "es").1.currentTranslations
       = ⟨some [], none⟩) :=
  ⟨by decide,
    loadLanguage_fallback_default
      (fun l => if l = "en" then some ⟨some [], none⟩ else none)
      ⟨"en", Mode.summary, Bundle.empty⟩ "es" ⟨some [], none⟩
      (by decide) (by decide) (by decide) (by decide) (by decide)⟩

/-- C6: a single attempt with at most one fallback hop and no retry loop.
When the fetch for `L` actually happens and fails, and the fallback fetch
for `'en'` also actually happens and fails, the bundle is left as the empty
object (terminal failed state).  Unconditionally, any `loadLanguage` call
performs at most two fetches (the attempt plus at most one fallback hop:
the recursion on line 74 of `src/script.js` always passes `'en'`, whose
failure branch does not recurse, so the recursion depth never exceeds one
and every call terminates — in the embedding, `loadLanguage` is total by a
decreasing measure on that recursion). -/
theorem loadLanguage_single_fallback_hop (fetch : String → Option Bundle)
    (st : SessionState) (L : String)
    (hg : ¬ (L = st.currentLang ∧ st.currentTranslations.isEmpty = false))
    (hfail : fetch L = none) (henfail : fetch "en" = none)
    (hg2 : ¬ ("en" = st.currentLang ∧ st.currentTranslations.isEmpty = false)) :
    ((loadLanguage fetch st L).1.currentTranslations = Bundle.empty ∧
     (loadLanguage fetch st L).2 ≤ 2) ∧
    ∀ (f : String → Option Bundle) (s : SessionState) (l : String),
      (loadLanguage f s l).2 ≤ 2 := by
  refine ⟨?_, loadLanguage_count_le_two⟩
  by_cases hL : L = "en"
  · subst hL
    rw [loadLanguage_fail_en hg henfail]
    exact ⟨rfl, by simp⟩
  · rw [loadLanguage_fail_other hg hfail hL]
    rw [loadLanguage_fail_en hg2 henfail]
    exact ⟨rfl, by simp⟩

/-- Witness for `loadLanguage_single_fallback_hop`: every fetch fails,
starting from the empty initial state, requesting `"es"`. -/
theorem loadLanguage_single_fallback_hop_witness :
    ((loadLanguage (fun _ => none) ⟨"en", Mode.summary, Bundle.empty⟩
        "es").1.currentTranslations = Bundle.empty ∧
     (loadLanguage (fun _ => none) ⟨"en", Mode.summary, Bundle.empty⟩
        "es").2 ≤ 2) ∧
    ∀ (f : String → Option Bundle) (s : SessionState) (l : String),
      (loadLanguage f s l).2 ≤ 2 :=
  loadLanguage_single_fallback_hop (fun _ => none)
    ⟨"en", Mode.summary, Bundle.empty⟩ "es"
    (by decide) rfl rfl (by decide)

theorem loadLanguage_bundle_cases (fetch : String → Option Bundle)
    (st : SessionState) (lang : String) :
    (loadLanguage fetch st lang).1.currentTranslations
        = st.currentTranslations ∨
    (loadLanguage fetch st lang).1.currentTranslations = Bundle.empty ∨
    fetch lang = some (loadLanguage fetch st lang).1.currentTranslations ∨
    fetch "en" = some (loadLanguage fetch st lang).1.currentTranslations := by
  by_cases hg : lang = st.currentLang ∧ st.currentTranslations.isEmpty = false
  · rw [loadLanguage_noop hg.1 hg.2]
    exact Or.inl rfl
  · match hb : fetch lang with
    | some b =>
      rw [loadLanguage_fetch_success hg hb]
      exact Or.inr (Or.inr (Or.inl rfl))
    | none =>
      by_cases hL : lang = "en"
      · subst hL
        rw [loadLanguage_fail_en hg hb]
        exact Or.inr (Or.inl rfl)
      · rw [loadLanguage_fail_other hg hb hL]
        by_cases hg2 : "en" = st.currentLang ∧
            st.currentTranslations.isEmpty = false
        · rw [loadLanguage_noop hg2.1 hg2.2]
          exact Or.inl rfl
        · match hb2 : fetch "en" with
          | some b2 =>
            rw [loadLanguage_fetch_success hg2 hb2]
            exact Or.inr (Or.inr (Or.inr rfl))
          | none =>
            rw [loadLanguage_fail_en hg2 hb2]
            exact Or.inr (Or.inl rfl)

theorem updateContent_state (fetch : String → Option Bundle)
    (st : SessionState) (d : Dom) :
    (updateContent fetch st d).1
      = (if st.currentTranslations.isEmpty then
          (loadLanguage fetch st st.currentLang).1
         else st) := by
  rw [updateContent]
  split
  all_goals split
  any_goals rfl
  all_goals split <;> rfl

/-- C8: at most one bundle is held at a time and there is no merging and no
caching.  Every operation that can change the session bundle — a
`loadLanguage` call and an `updateContent` call (the mode-toggle and
language-click handlers are compositions of these) — either leaves the
bundle unchanged, replaces it wholesale with exactly the bundle some fetch
returned (for the requested language or the `'en'` fallback), or sets it to
the empty object. -/
theorem bundle_wholesale_replacement :
    (∀ (fetch : String → Option Bundle) (st : SessionState) (lang : String),
      (loadLanguage fetch st lang).1.currentTranslations
          = st.currentTranslations ∨
      (loadLanguage fetch st lang).1.currentTranslations = Bundle.empty ∨
      fetch lang = some (loadLanguage fetch st lang).1.currentTranslations ∨
      fetch "en"
          = some (loadLanguage fetch st lang).1.currentTranslations) ∧
    (∀ (fetch : String → Option Bundle) (st : SessionState) (d : Dom),
      (updateContent fetch st d).1.currentTranslations
          = st.currentTranslations ∨
      (updateContent fetch st d).1.currentTranslations = Bundle.empty ∨
      fetch st.currentLang
          = some (updateContent fetch st d).1.currentTranslations ∨
      fetch "en"
          = some (updateContent fetch st d).1.currentTranslations) := by
  refine ⟨loadLanguage_bundle_cases, ?_⟩
  intro fetch st d
  rw [updateContent_state]
  by_cases he : st.currentTranslations.isEmpty
  · rw [if_pos he]
    exact loadLanguage_bundle_cases fetch st st.currentLang
  · rw [if_neg he]
    exact Or.inl rfl

/-! ## C7, C10: the content refresher -/

theorem Mode.flip_flip (m : Mode) : m.flip.flip = m := by
  cases m <;> rfl

theorem renderVisibility_fullModeHidden (m : Mode) (d : Dom) :
    (renderVisibility m d).fullModeHidden = (m == Mode.summary) := by
  cases m <;> rfl

theorem renderVisibility_btnGray700 (m : Mode) (d : Dom) :
    (renderVisibility m d).btnGray700 = (m == Mode.full) := by
  cases m <;> rfl

theorem renderVisibility_btnDarkCard (m : Mode) (d : Dom) :
    (renderVisibility m d).btnDarkCard = (m == Mode.summary) := by
  cases m <;> rfl

theorem updateContent_nonempty_state (fetch : String → Option Bundle)
    (st : SessionState) (d : Dom)
    (hb : st.currentTranslations.isEmpty = false) :
    (updateContent fetch st d).1 = st := by
  rw [updateContent_state]
  simp [hb]

theorem updateContent_vis (fetch : String → Option Bundle)
    (st : SessionState) (d : Dom)
    (hb : st.currentTranslations.isEmpty = false) :
    (st.currentTranslations.summary = none →
      (updateContent fetch st d).2.fullModeHidden = d.fullModeHidden ∧
      (updateContent fetch st d).2.btnGray700 = d.btnGray700 ∧
      (updateContent fetch st d).2.btnDarkCard = d.btnDarkCard) ∧
    (∀ bc, st.currentTranslations.summary = some bc →
      (updateContent fetch st d).2.fullModeHidden
          = (st.currentMode == Mode.summary) ∧
      (updateContent fetch st d).2.btnGray700 = (st.currentMode == Mode.full) ∧
      (updateContent fetch st d).2.btnDarkCard
          = (st.currentMode == Mode.summary)) := by
  rw [updateContent]
  cases hsum : st.currentTranslations.summary with
  | none =>
    simp [hb, hsum]
  | some bc =>
    simp [hb, hsum, renderVisibility_fullModeHidden,
      renderVisibility_btnGray700, renderVisibility_btnDarkCard]

/-- C7: starting from any session state with a loaded (non-empty) bundle and
a DOM whose mode-dependent visibility is the one `updateContent` renders
for the current mode, two activations of the mode-toggle click handler
(each of which flips the mode and runs `updateContent`, `src/script.js`
lines 173-176) restore the mode, the `hidden` class on the full-mode
container, and both background classes on the toggle button to their
original configuration. -/
theorem mode_toggle_twice_restores (fetch : String → Option Bundle)
    (st : SessionState) (d : Dom)
    (hb : st.currentTranslations.isEmpty = false)
    (hvis : renderVisibility st.currentMode d = d) :
    (modeToggleClick fetch (modeToggleClick fetch st d).1
        (modeToggleClick fetch st d).2).1.currentMode = st.currentMode ∧
    (modeToggleClick fetch (modeToggleClick fetch st d).1
        (modeToggleClick fetch st d).2).2.fullModeHidden = d.fullModeHidden ∧
    (modeToggleClick fetch (modeToggleClick fetch st d).1
        (modeToggleClick fetch st d).2).2.btnGray700 = d.btnGray700 ∧
    (modeToggleClick fetch (modeToggleClick fetch st d).1
        (modeToggleClick fetch st d).2).2.btnDarkCard = d.btnDarkCard := by
  have hb1 : ({ st with currentMode := st.currentMode.flip } :
      SessionState).currentTranslations.isEmpty = false := hb
  have h1 : (modeToggleClick fetch st d).1
      = { st with currentMode := st.currentMode.flip } :=
    updateContent_nonempty_state fetch _ d hb1
  have hstid : ({ st with currentMode := st.currentMode.flip.flip } :
      SessionState) = st := by
    cases st
    simp [Mode.flip_flip]
  have h3 : modeToggleClick fetch (modeToggleClick fetch st d).1
        (modeToggleClick fetch st d).2
      = updateContent fetch st (modeToggleClick fetch st d).2 := by
    rw [modeToggleClick, h1]
    exact congrArg
      (fun s => updateContent fetch s (modeToggleClick fetch st d).2) hstid
  have hd1 : d.fullModeHidden = (st.currentMode == Mode.summary) := by
    have h := congrArg Dom.fullModeHidden hvis
    rw [renderVisibility_fullModeHidden] at h
    exact h.symm
  have hd2 : d.btnGray700 = (st.currentMode == Mode.full) := by
    have h := congrArg Dom.btnGray700 hvis
    rw [renderVisibility_btnGray700] at h
    exact h.symm
  have hd3 : d.btnDarkCard = (st.currentMode == Mode.summary) := by
    have h := congrArg Dom.btnDarkCard hvis
    rw [renderVisibility_btnDarkCard] at h
    exact h.symm
  have hvis1 := updateContent_vis fetch
    { st with currentMode := st.currentMode.flip } d hb1
  have hvis2 := updateContent_vis fetch st (modeToggleClick fetch st d).2 hb
  refine ⟨?_, ?_, ?_, ?_⟩
  · rw [h3, updateContent_nonempty_state fetch st _ hb]
  · rw [h3]
    cases hsum : st.currentTranslations.summary with
    | none => exact (hvis2.1 hsum).1.trans (hvis1.1 hsum).1
    | some bc => exact ((hvis2.2 bc hsum).1).trans hd1.symm
  · rw [h3]
    cases hsum : st.currentTranslations.summary with
    | none => exact (hvis2.1 hsum).2.1.trans (hvis1.1 hsum).2.1
    | some bc => exact ((hvis2.2 bc hsum).2.1).trans hd2.symm
  · rw [h3]
    cases hsum : st.currentTranslations.summary with
    | none => exact (hvis2.1 hsum).2.2.trans (hvis1.1 hsum).2.2
    | some bc => exact ((hvis2.2 bc hsum).2.2).trans hd3.symm

/-- Witness for `mode_toggle_twice_restores`: a loaded bundle with a
`summary` map, mode `summary`, and the DOM rendered for mode `summary`. -/
theorem mode_toggle_twice_restores_witness :
    (Bundle.isEmpty ⟨some [("mode-toggle-text", "M")], none⟩ = false ∧
     renderVisibility Mode.summary
       ⟨[], "en", "EN", "M", true, false, true, "a", "b", "c", "d"⟩
       = ⟨[], "en", "EN", "M", true, false, true, "a", "b", "c", "d"⟩) ∧
    ((modeToggleClick (fun _ => none)
        (modeToggleClick (fun _ => none)
          ⟨"en", Mode.summary, ⟨some [("mode-toggle-text", "M")], none⟩⟩
          ⟨[], "en", "EN", "M", true, false, true, "a", "b", "c", "d"⟩).1
        (modeToggleClick (fun _ => none)
          ⟨"en", Mode.summary, ⟨some [("mode-toggle-text", "M")], none⟩⟩
          ⟨[], "en", "EN", "M", true, false, true, "a", "b", "c", "d"⟩).2).1.currentMode
      = Mode.summary ∧
     (modeToggleClick (fun _ => none)
        (modeToggleClick (fun _ => none)
          ⟨"en", Mode.summary, ⟨some [("mode-toggle-text", "M")], none⟩⟩
          ⟨[], "en", "EN", "M", true, false, true, "a", "b", "c", "d"⟩).1
        (modeToggleClick (fun _ => none)
          ⟨"en", Mode.summary, ⟨some [("mode-toggle-text", "M")], none⟩⟩
          ⟨[], "en", "EN", "M", true, false, true, "a", "b", "c", "d"⟩).2).2.fullModeHidden
      = true ∧
     (modeToggleClick (fun _ => none)
        (modeToggleClick (fun _ => none)
          ⟨"en", Mode.summary, ⟨some [("mode-toggle-text", "M")], none⟩⟩
          ⟨[], "en", "EN", "M", true, false, true, "a", "b", "c", "d"⟩).1
        (modeToggleClick (fun _ => none)
          ⟨"en", Mode.summary, ⟨some [("mode-toggle-text", "M")], none⟩⟩
          ⟨[], "en", "EN", "M", true, false, true, "a", "b", "c", "d"⟩).2).2.btnGray700
      = false ∧
     (modeToggleClick (fun _ => none)
        (modeToggleClick (fun _ => none)
          ⟨"en", Mode.summary, ⟨some [("mode-toggle-text", "M")], none⟩⟩
          ⟨[], "en", "EN", "M", true, false, true, "a", "b", "c", "d"⟩).1
        (modeToggleClick (fun _ => none)
          ⟨"en", Mode.summary, ⟨some [("mode-toggle-text", "M")], none⟩⟩
          ⟨[], "en", "EN", "M", true, false, true, "a", "b", "c", "d"⟩).2).2.btnDarkCard
      = true) :=
  ⟨⟨by decide, by decide⟩,
    mode_toggle_twice_restores (fun _ => none)
      ⟨"en", Mode.summary, ⟨some [("mode-toggle-text", "M")], none⟩⟩
      ⟨[], "en", "EN", "M", true, false, true, "a", "b", "c", "d"⟩
      (by decide) (by decide)⟩

/-- C10: if the bundle is still empty after the loading attempt inside
`updateContent` (the load failed terminally), `updateContent` returns early
(`src/script.js` lines 94-97) and performs no DOM mutation at all: the
returned DOM — element texts, document language, language display,
visibility classes and navigation labels — is exactly the input DOM. -/
theorem updateContent_atomic_on_failure (fetch : String → Option Bundle)
    (st : SessionState) (d : Dom)
    (h : (updateContent fetch st d).1.currentTranslations.isEmpty = true) :
    (updateContent fetch st d).2 = d := by
  rw [updateContent_state] at h
  rw [updateContent]
  simp [h]

/-- Witness for `updateContent_atomic_on_failure`: every fetch fails and the
session starts with the empty bundle, so the load attempt leaves the bundle
empty and the DOM is returned untouched. -/
theorem updateContent_atomic_on_failure_witness :
    (updateContent (fun _ => none) ⟨"en", Mode.summary, Bundle.empty⟩
        ⟨[("k", "v")], "en", "EN", "M", true, false, true, "a", "b", "c",
          "d"⟩).1.currentTranslations.isEmpty = true ∧
    (updateContent (fun _ => none) ⟨"en", Mode.summary, Bundle.empty⟩
        ⟨[("k", "v")], "en", "EN", "M", true, false, true, "a", "b", "c",
          "d"⟩).2
      = ⟨[("k", "v")], "en", "EN", "M", true, false, true, "a", "b", "c",
          "d"⟩ :=
  ⟨(by
      rw [updateContent_state, loadLanguage, loadLanguage]
      decide),
    updateContent_atomic_on_failure (fun _ => none)
      ⟨"en", Mode.summary, Bundle.empty⟩
      ⟨[("k", "v")], "en", "EN", "M", true, false, true, "a", "b", "c", "d"⟩
      (by
        rw [updateContent_state, loadLanguage, loadLanguage]
        decide)⟩

/-! ## C9: the markup normalizer -/

theorem String_eq_of_data {a b : String} (h : a.data = b.data) : a = b :=
  congrArg String.mk h

theorem pmAux_nil : pmAux [] = [] := by
  rw [pmAux]

theorem pmAux_open {rest cap rest2 : List Char}
    (hf : findClose rest = some (cap, rest2)) :
    pmAux ('*' :: '*' :: rest)
      = ("<strong>".data ++ cap ++ "</strong>".data) ++ pmAux rest2 := by
  rw [pmAux]
  split
  · rename_i p heq
    have hp := hf.symm.trans heq
    simp only [Option.some.injEq] at hp
    rw [← hp]
  · rename_i heq
    rw [heq] at hf
    exact absurd hf (by simp)

theorem pmAux_no_double_id {cs : List Char} (h : hasDoubleStar cs = false) :
    pmAux cs = cs := by
  induction cs using hasDoubleStar.induct with
  | case1 rest => simp [hasDoubleStar] at h
  | case2 c rest h1 ih =>
    rw [hasDoubleStar] at h
    · rw [pmAux]
      · rw [ih h]
      · exact h1
    · exact h1
  | case3 => exact pmAux_nil

theorem findClose_clean {xs : List Char}
    (h : ∀ c ∈ xs, c ≠ '*' ∧ isLineTerminator c = false) (rest : List Char) :
    findClose (xs ++ '*' :: '*' :: rest) = some (xs, rest) := by
  induction xs with
  | nil => simp [findClose]
  | cons c xs ih =>
    have hc := h c (by simp)
    have hxs : ∀ a ∈ xs, a ≠ '*' ∧ isLineTerminator a = false :=
      fun a ha => h a (by simp [ha])
    rw [List.cons_append, findClose]
    · rw [hc.2]
      simp [ih hxs]
    · intro r1 h1 _
      exact hc.1 h1

theorem processMarkdown_data (s : String) :
    processMarkdown s = String.mk (pmAux s.data) := by
  rw [processMarkdown]
  by_cases hs : s = ""
  · subst hs
    simp [pmAux_nil]
  · have hb : (s == "") = false := by simpa using hs
    rw [hb]
    simp

/-- C9: `processMarkdown` implements the single global pass of
`replace(/\*\*(.*?)\*\*/g, '<strong>$1</strong>')`.  The conjuncts:
(1) inputs with no `**` delimiter anywhere are preserved unchanged
(all other characters preserved);
(2) a `**`-delimited span of ordinary characters (no `*`, no ECMA-262 line
terminator) becomes a `<strong>` span;
(3) several spans in one string are each converted, and matching is
non-greedy (a greedy match of `"**a**b**c**"` would swallow `a**b` into one
span, the code produces two separate spans);
(4) no nesting support: in `"**a **b** c**"` the would-be inner delimiters
pair with the outer ones, left to right;
(5) no escaping of literal delimiter characters: a backslash before `**`
does not prevent the conversion;
(6) `.` does not match a line terminator: a span interrupted by a carriage
return is not converted. -/
theorem processMarkdown_bold_spec :
    (∀ s : String, hasDoubleStar s.data = false → processMarkdown s = s) ∧
    (∀ x : String, (∀ c ∈ x.data, c ≠ '*' ∧ isLineTerminator c = false) →
      processMarkdown ("**" ++ x ++ "**")
        = "<strong>" ++ x ++ "</strong>") ∧
    processMarkdown "**a**b**c**" = "<strong>a</strong>b<strong>c</strong>" ∧
    processMarkdown "**a **b** c**"
      = "<strong>a </strong>b<strong> c</strong>" ∧
    processMarkdown "\\**a**" = "\\<strong>a</strong>" ∧
    processMarkdown "**a\rb**" = "**a\rb**" := by
  refine ⟨?_, ?_, ?_, ?_, ?_, ?_⟩
  · intro s h
    rw [processMarkdown_data, pmAux_no_double_id h]
  · intro x hx
    apply String_eq_of_data
    have hdata : ("**" ++ x ++ "**").data
        = '*' :: '*' :: (x.data ++ '*' :: '*' :: []) := by
      rw [String.data_append, String.data_append]
      show (['*', '*'] ++ x.data) ++ ['*', '*'] = _
      simp
    rw [processMarkdown_data]
    show pmAux (("**" ++ x ++ "**").data) = _
    rw [hdata, pmAux_open (findClose_clean hx []), pmAux_nil]
    rw [String.data_append, String.data_append]
    show _ = (("<strong>".data ++ x.data) ++ "</strong>".data)
    simp
  · simp [processMarkdown, pmAux, findClose, isLineTerminator]
  · simp [processMarkdown, pmAux, findClose, isLineTerminator]
  · simp [processMarkdown, pmAux, findClose, isLineTerminator]
  · simp [processMarkdown, pmAux, findClose, isLineTerminator]

/-- Witness for `processMarkdown_bold_spec`, instantiating its universally
quantified conjuncts: conjunct (1) at `"hi"` and conjunct (2) at `"a"`. -/
theorem processMarkdown_bold_spec_witness :
    (hasDoubleStar ("hi" : String).data = false ∧
      processMarkdown "hi" = "hi") ∧
    ((∀ c ∈ ("a" : String).data, c ≠ '*' ∧ isLineTerminator c = false) ∧
      processMarkdown "**a**" = "<strong>a</strong>") :=
  ⟨⟨by decide, processMarkdown_bold_spec.1 "hi" (by decide)⟩,
   ⟨by decide, processMarkdown_bold_spec.2.1 "a" (by decide)⟩⟩
